import Mathlib

/-!
Sunday.Sams control panel: the status synchronisation engine.

A shallow embedding of `web/static/js/app.js` and the properties of its
status synchronisation logic.

Modelling conventions.

* Values that travel in JSON payloads are `JSVal`. `JSVal.num n` stands for
  the integer-valued number `n`; the program only ever tests a number for
  being zero, or prints it, and a number that is not an integer behaves as a
  non-zero one does.
* An object is the association list of its own properties; the value of a
  property is its first binding, and a property that is not bound reads as
  `undefined`. None of the property names the program reads from a payload
  lives on a built-in prototype, except `length`, which is handled apart.
* The page is a `World`: the module-level `state` object, the children of
  `logContainer`, the other writes to the document in the order they are
  made, and the `alert` boxes shown. The wall-clock time printed in front of
  a log line and the console output are left out.
* The elements the script looks up with `getElementById` exist.
* A handler either returns or stops at an uncaught `TypeError`; both are
  values of `Except World World`, and either way the writes made so far stay.
-/

namespace Sams

/-! ## JavaScript values -/

/-- JSON values, and `undefined` for what a missing property reads as. -/
inductive JSVal where
  | undefined
  | null
  | bool (b : Bool)
  | num (n : Int)
  | str (s : String)
  | arr (xs : List JSVal)
  | obj (kvs : List (String × JSVal))

/-- The own properties of an object. -/
abbrev Obj := List (String × JSVal)

namespace JSVal

/-- JavaScript truthiness (`ToBoolean`): what `if (v)` tests. -/
def truthy : JSVal → Bool
  | undefined => false
  | null => false
  | bool b => b
  | num n => n != 0
  | str s => s != ""
  | arr _ => true
  | obj _ => true

/-- Test `v === undefined || v === null`: reading a property of such a value throws. -/
def isNullish : JSVal → Bool
  | undefined => true
  | null => true
  | _ => false

/-- Test `v !== undefined`. -/
def isDefined : JSVal → Bool
  | undefined => false
  | _ => true

/-- Test `v === s` for a string literal `s`. -/
def strictEqStr : JSVal → String → Bool
  | str t, s => t == s
  | _, _ => false

mutual
/-- Whether converting the value to a string or a number throws. An object
parsed from JSON throws exactly when it has an own `toString` property (which
then is not callable and hides `Object.prototype.toString`); an array joins
the conversions of its elements. -/
def convThrows : JSVal → Bool
  | obj kvs => kvs.any (fun kv => kv.1 == "toString")
  | arr xs => anyConvThrows xs
  | _ => false
/-- Some element of the list throws on conversion. -/
def anyConvThrows : List JSVal → Bool
  | [] => false
  | x :: xs => convThrows x || anyConvThrows xs
end

mutual
/-- JavaScript `ToString` on values whose conversion does not throw. The only
use is the key of the step table read; a number prints in decimal (from
`10^21` on JavaScript switches to exponent form, and neither form is a property
name of the table or of its prototype). -/
def toStr : JSVal → String
  | undefined => "undefined"
  | null => "null"
  | bool b => if b then "true" else "false"
  | num n => toString n
  | str s => s
  | arr xs => joinStr xs
  | obj _ => "[object Object]"
/-- Array conversion `xs.join(",")`: `undefined` and `null` elements print as nothing. -/
def joinStr : List JSVal → String
  | [] => ""
  | x :: xs =>
    (match x with
      | undefined => ""
      | null => ""
      | v => toStr v) ++ joinRest xs
/-- The elements after the first, each behind a comma. -/
def joinRest : List JSVal → String
  | [] => ""
  | x :: xs =>
    "," ++ (match x with
      | undefined => ""
      | null => ""
      | v => toStr v) ++ joinRest xs
end

end JSVal

open JSVal

/-- Property read `o.k` on an object given by its own properties. -/
def get (o : Obj) (k : String) : JSVal :=
  match o.lookup k with
  | some v => v
  | none => .undefined

/-- Property read `v.k` on a value that is neither `undefined` nor `null`:
primitives and arrays have none of the properties the program asks for. -/
def prop (v : JSVal) (k : String) : JSVal :=
  match v with
  | .obj kvs => get kvs k
  | _ => .undefined

/-- Test `v.length === 0`. -/
def lengthIsZero : JSVal → Bool
  | .arr xs => xs.isEmpty
  | .str s => s == ""
  | .obj kvs =>
    match get kvs "length" with
    | .num n => n == 0
    | _ => false
  | _ => false

/-! ## The canonical state -/

/-- The module-level `state` object. -/
structure State where
  isRunning : Bool
  currentStep : JSVal
  address : JSVal
  stores : JSVal
  goodsList : JSVal
  timeSlots : JSVal
  order : JSVal

/-- The `state` literal the script starts with. -/
def State.initial : State where
  isRunning := false
  currentStep := .str "idle"
  address := .null
  stores := .arr []
  goodsList := .arr []
  timeSlots := .arr []
  order := .null

/-! ## The step table -/

/-- One entry of `stepMap`. -/
structure StepDescriptor where
  title : String
  desc : String
  icon : String
deriving DecidableEq

/-- The object literal `stepMap`: its own properties, in source order. -/
def stepMap : List (String × StepDescriptor) :=
  [ ("idle", ⟨"等待开始", "配置参数后点击开始", "⏸️"⟩),
    ("configured", ⟨"配置完成", "参数已保存", "✅"⟩),
    ("starting", ⟨"正在启动", "初始化中...", "🚀"⟩),
    ("saving_address", ⟨"保存地址", "正在保存配送地址...", "📍"⟩),
    ("address_saved", ⟨"地址已保存", "配送地址设置成功", "✅"⟩),
    ("checking_stores", ⟨"查找商店", "正在查找可用门店...", "🏪"⟩),
    ("stores_loaded", ⟨"商店已加载", "已找到可用门店", "✅"⟩),
    ("checking_cart", ⟨"检查购物车", "正在获取购物车商品...", "🛒"⟩),
    ("cart_loaded", ⟨"购物车已加载", "已获取购物车商品", "✅"⟩),
    ("checking_goods", ⟨"校验商品", "正在校验商品状态...", "🔍"⟩),
    ("settle_checked", ⟨"结算信息", "正在计算运费...", "💰"⟩),
    ("checking_capacity", ⟨"获取配送时间", "正在查询可用时间段...", "⏰"⟩),
    ("capacity_loaded", ⟨"配送时间已获取", "已找到可用时间段", "✅"⟩),
    ("submitting_order", ⟨"提交订单", "正在提交订单...", "📦"⟩),
    ("order_success", ⟨"订单成功", "抢购成功！", "🎉"⟩),
    ("stopped", ⟨"已停止", "程序已停止", "⏹️"⟩) ]

/-- The property names of `Object.prototype`, which `stepMap` inherits as an
object literal: seven methods, the `__proto__` accessor and the four legacy
accessor helpers. -/
def objectPrototypeKeys : List String :=
  [ "constructor", "hasOwnProperty", "isPrototypeOf", "propertyIsEnumerable",
    "toLocaleString", "toString", "valueOf", "__proto__",
    "__defineGetter__", "__defineSetter__", "__lookupGetter__", "__lookupSetter__" ]

/-- What a property read on `stepMap` yields. -/
inductive StepEntry where
  | descriptor (d : StepDescriptor)
  | inherited (name : String)
  | undefined
deriving DecidableEq

/-- Truthiness of a `stepMap` read: descriptors are objects, inherited members
are functions (or, for `__proto__`, the prototype object). -/
def StepEntry.truthy : StepEntry → Bool
  | .descriptor _ => true
  | .inherited _ => true
  | .undefined => false

/-- The read `stepMap[k]`: own properties first, then the prototype. -/
def stepMapGet (k : String) : StepEntry :=
  match stepMap.lookup k with
  | some d => .descriptor d
  | none => if objectPrototypeKeys.contains k then .inherited k else .undefined

/-- The expression `stepMap[k] || stepMap['idle']` of `updateSteps`. -/
def stepFor (k : String) : StepEntry :=
  if (stepMapGet k).truthy then stepMapGet k else stepMapGet "idle"

/-- The sixteen step identifiers of the table. -/
def stepIds : List String := stepMap.map Prod.fst

/-! ## The page -/

/-- What a caught exception was. -/
inductive Failure where
  | rejected (message : String)
  | typeError
deriving DecidableEq

/-- The text of a log line or an alert box, as the source builds it. -/
inductive Text where
  | lit (s : String)
  | ofValue (v : JSVal)
  | concat (s : String) (v : JSVal)
  | caught (s : String) (e : Failure)

/-- Whether building or escaping the text throws. -/
def Text.throws : Text → Bool
  | .lit _ => false
  | .ofValue v => convThrows v
  | .concat _ v => convThrows v
  | .caught _ _ => false

/-- A child of `logContainer`. -/
structure LogEntry where
  level : String
  message : Text

/-- The four panels that are shown and hidden. -/
inductive Panel where
  | addressPanel
  | goodsPanel
  | timeSlotsPanel
  | orderPanel
deriving DecidableEq

/-- What `updateUI` writes to the status indicator and the two buttons. -/
structure View where
  indicator : String
  statusText : String
  startDisabled : Bool
  stopDisabled : Bool
deriving DecidableEq

/-- One line of `goodsList.innerHTML`: the values printed for a goods item. -/
structure GoodsRow where
  goodsName : JSVal
  quantity : JSVal
  price : JSVal

/-- A write to the document, outside the log. -/
inductive RenderCmd where
  | showPanel (p : Panel)
  | hidePanel (p : Panel)
  | addressInfo (name mobile districtName receiverAddress detailAddress : JSVal)
  | goodsRows (rows : List GoodsRow)
  | timeSlotRows (arrivalTimes : List JSVal)
  | orderInfo (orderNo payAmount : JSVal) (wechat : Bool)
  | status (v : View)
  | steps (step : StepEntry) (active success : Bool)
  | enableStart

/-- The page: the canonical state and everything the script has written. -/
structure World where
  state : State
  log : List LogEntry
  render : List RenderCmd
  alerts : List Text

/-- The page right after loading the script. -/
def World.initial : World where
  state := State.initial
  log := []
  render := []
  alerts := []

/-- Append one write to the document. -/
def World.emit (w : World) (c : RenderCmd) : World :=
  { w with render := w.render ++ [c] }

/-- The call `alert(t)`. -/
def World.alert (w : World) (t : Text) : World :=
  { w with alerts := w.alerts ++ [t] }

/-- The page a handler leaves behind, whether it returned or threw. -/
def final : Except World World → World
  | .ok w => w
  | .error w => w

/-- Whether a handler returned. -/
def returns : Except World World → Bool
  | .ok _ => true
  | .error _ => false

/-! ## Log sink -/

/-- Function `addLog(level, message)`: `level.toUpperCase()` needs a string,
and the entry is appended only after its markup has been built. -/
def addLog (level : JSVal) (message : Text) (w : World) : Except World World :=
  match level with
  | .str l =>
    if message.throws then .error w
    else .ok { w with log := w.log ++ [{ level := l, message := message }] }
  | _ => .error w

/-- The click handler of `clearLogBtn`. -/
def clearLog (w : World) : World :=
  { w with log := [] }

/-! ## Panels -/

/-- Whether the template of `displayAddress` throws: `address` has no
properties to read, or one of the five printed values does not convert. -/
def displayAddressThrows (address : JSVal) : Bool :=
  address.isNullish || convThrows (prop address "name") || convThrows (prop address "mobile")
    || convThrows (prop address "districtName") || convThrows (prop address "receiverAddress")
    || convThrows (prop address "detailAddress")

/-- Function `displayAddress(address)`: the panel is shown before the
template is evaluated. -/
def displayAddress (address : JSVal) (w : World) : Except World World :=
  let w := w.emit (.showPanel .addressPanel)
  if displayAddressThrows address then .error w
  else .ok (w.emit (.addressInfo (prop address "name") (prop address "mobile")
    (prop address "districtName") (prop address "receiverAddress")
    (prop address "detailAddress")))

/-- Whether the template of `displayGoods` throws on an item. -/
def goodsRowThrows (goods : JSVal) : Bool :=
  goods.isNullish || convThrows (prop goods "goodsName")
    || convThrows (prop goods "quantity") || convThrows (prop goods "price")

/-- The values the template of `displayGoods` prints for an item. -/
def goodsRow (goods : JSVal) : GoodsRow where
  goodsName := if (prop goods "goodsName").truthy then prop goods "goodsName" else .str "未知商品"
  quantity := prop goods "quantity"
  price := prop goods "price"

/-- Whether `goodsList.map(...)` throws: only an array has `map`, and the
callback runs on every item. -/
def goodsMapThrows : JSVal → Bool
  | .arr xs => xs.any goodsRowThrows
  | _ => true

/-- The lines `goodsList.map(...)` produces. -/
def goodsRows : JSVal → List GoodsRow
  | .arr xs => xs.map goodsRow
  | _ => []

/-- Function `displayGoods(goodsList)`. -/
def displayGoods (goodsList : JSVal) (w : World) : Except World World :=
  if !goodsList.truthy || lengthIsZero goodsList then
    .ok (w.emit (.hidePanel .goodsPanel))
  else
    let w := w.emit (.showPanel .goodsPanel)
    if goodsMapThrows goodsList then .error w
    else .ok (w.emit (.goodsRows (goodsRows goodsList)))

/-- Whether `timeSlots.map(...)` throws. -/
def timeSlotsMapThrows : JSVal → Bool
  | .arr xs => xs.any (fun slot => slot.isNullish || convThrows (prop slot "arrivalTimeStr"))
  | _ => true

/-- The lines `timeSlots.map(...)` produces. -/
def timeSlotRows : JSVal → List JSVal
  | .arr xs => xs.map (fun slot => prop slot "arrivalTimeStr")
  | _ => []

/-- Function `displayTimeSlots(timeSlots)`. -/
def displayTimeSlots (timeSlots : JSVal) (w : World) : Except World World :=
  if !timeSlots.truthy || lengthIsZero timeSlots then
    .ok (w.emit (.hidePanel .timeSlotsPanel))
  else
    let w := w.emit (.showPanel .timeSlotsPanel)
    if timeSlotsMapThrows timeSlots then .error w
    else .ok (w.emit (.timeSlotRows (timeSlotRows timeSlots)))

/-- Whether the template of `displayOrder` throws. -/
def displayOrderThrows (order : JSVal) : Bool :=
  convThrows (prop order "orderNo") || convThrows (prop order "payAmount")

/-- Function `displayOrder(order)`. -/
def displayOrder (order : JSVal) (w : World) : Except World World :=
  if !order.truthy then
    .ok (w.emit (.hidePanel .orderPanel))
  else
    let w := w.emit (.showPanel .orderPanel)
    if displayOrderThrows order then .error w
    else .ok (w.emit (.orderInfo (prop order "orderNo") (prop order "payAmount")
      ((prop order "channel").strictEqStr "wechat")))

/-! ## View projection -/

/-- Function `updateSteps()`: the key of the table read is `currentStep`
converted to a string. -/
def updateSteps (w : World) : Except World World :=
  if convThrows w.state.currentStep then .error w
  else .ok (w.emit (.steps (stepFor w.state.currentStep.toStr) w.state.isRunning
    (w.state.currentStep.strictEqStr "order_success")))

/-- The three branches of `updateUI()`: the class of `statusDot` after
`status-dot`, the text of `statusText`, and `disabled` of the two buttons. -/
def updateUIView (s : State) : View :=
  if s.isRunning then
    { indicator := "running", statusText := "运行中",
      startDisabled := true, stopDisabled := false }
  else if s.currentStep.strictEqStr "order_success" then
    { indicator := "success", statusText := "抢购成功",
      startDisabled := true, stopDisabled := false }
  else
    { indicator := "stopped", statusText := "未运行",
      startDisabled := !s.address.truthy, stopDisabled := true }

/-- Function `updateUI()`. -/
def updateUI (w : World) : Except World World :=
  updateSteps (w.emit (.status (updateUIView w.state)))

/-! ## State reconciler -/

/-- Block `if (data.step) { state.currentStep = data.step; }`. -/
def applyStep (data : Obj) (w : World) : World :=
  if (get data "step").truthy then
    { w with state := { w.state with currentStep := get data "step" } }
  else w

/-- Block `if (data.status) { state.isRunning = data.status === 'running'; }`. -/
def applyStatus (data : Obj) (w : World) : World :=
  if (get data "status").truthy then
    { w with state := { w.state with isRunning := (get data "status").strictEqStr "running" } }
  else w

/-- Block `if (data.address) { state.address = data.address; displayAddress(data.address); }`. -/
def applyAddress (data : Obj) (w : World) : Except World World :=
  if (get data "address").truthy then
    displayAddress (get data "address")
      { w with state := { w.state with address := get data "address" } }
  else .ok w

/-- Block `if (data.stores) { state.stores = data.stores; }`. -/
def applyStores (data : Obj) (w : World) : World :=
  if (get data "stores").truthy then
    { w with state := { w.state with stores := get data "stores" } }
  else w

/-- Block `if (data.goodsList) { state.goodsList = data.goodsList; displayGoods(data.goodsList); }`. -/
def applyGoodsList (data : Obj) (w : World) : Except World World :=
  if (get data "goodsList").truthy then
    displayGoods (get data "goodsList")
      { w with state := { w.state with goodsList := get data "goodsList" } }
  else .ok w

/-- Block `if (data.timeSlots) { state.timeSlots = data.timeSlots; displayTimeSlots(data.timeSlots); }`. -/
def applyTimeSlots (data : Obj) (w : World) : Except World World :=
  if (get data "timeSlots").truthy then
    displayTimeSlots (get data "timeSlots")
      { w with state := { w.state with timeSlots := get data "timeSlots" } }
  else .ok w

/-- Block `if (data.order) { state.order = data.order; displayOrder(data.order); }`. -/
def applyOrder (data : Obj) (w : World) : Except World World :=
  if (get data "order").truthy then
    displayOrder (get data "order")
      { w with state := { w.state with order := get data "order" } }
  else .ok w

/-- Block `if (data.error) { addLog('error', data.error); }`. -/
def reportError (data : Obj) (w : World) : Except World World :=
  if (get data "error").truthy then
    addLog (.str "error") (.ofValue (get data "error")) w
  else .ok w

/-- Function `updateStatus(data)`: its eight blocks in source order, then `updateUI()`. -/
def updateStatus (data : Obj) (w : World) : Except World World := do
  let w := applyStep data w
  let w := applyStatus data w
  let w ← applyAddress data w
  let w := applyStores data w
  let w ← applyGoodsList data w
  let w ← applyTimeSlots data w
  let w ← applyOrder data w
  let w ← reportError data w
  updateUI w

/-! ## Transport channel and snapshot fetcher -/

/-- Function `handleWebSocketMessage(data)`, for a message that is an object. -/
def handleWebSocketMessage (data : Obj) (w : World) : Except World World := do
  if (get data "type").strictEqStr "ping" then
    return w
  let w ←
    if (get data "time").truthy && (get data "level").truthy && (get data "message").truthy then
      addLog (get data "level") (.ofValue (get data "message")) w
    else pure w
  if (get data "step").isDefined then
    updateStatus data w
  else pure w

/-- What `await fetch(...)` followed by `await response.json()` gives: the
parsed body, or a rejection (no network, or a body that is not JSON). -/
inductive Reply where
  | rejected (message : String)
  | json (result : JSVal)

/-- Function `loadStatus()`: whatever is thrown goes to the console only. -/
def loadStatus (reply : Reply) (w : World) : World :=
  match reply with
  | .rejected _ => w
  | .json result =>
    if result.isNullish then w
    else if (prop result "success").truthy && (prop result "data").truthy then
      match prop result "data" with
      | .obj data => final (updateStatus data w)
      | _ => final (updateStatus [] w)
    else w

/-! ## Submission surface -/

/-- The `catch` block of `saveConfig` and of `startProcess`. -/
def reportFailure (e : Failure) (w : World) : World :=
  (final (addLog (.str "error") (.caught "请求失败: " e) w)).alert (.caught "请求失败: " e)

/-- Function `saveConfig()`, from the reply to `POST /api/config` on. -/
def saveConfig (reply : Reply) (w : World) : World :=
  match reply with
  | .rejected m => reportFailure (.rejected m) w
  | .json result =>
    if result.isNullish then reportFailure .typeError w
    else if (prop result "success").truthy then
      let w := final (addLog (.str "success") (.lit "配置保存成功") w)
      let shown :=
        if (prop result "data").truthy && (prop (prop result "data") "selectedAddress").truthy then
          displayAddress (prop (prop result "data") "selectedAddress") w
        else .ok w
      match shown with
      | .ok w => w.emit .enableStart
      | .error w => reportFailure .typeError w
    else
      match addLog (.str "error") (.concat "配置保存失败: " (prop result "message")) w with
      | .ok w => w.alert (.concat "配置失败: " (prop result "message"))
      | .error w => reportFailure .typeError w

/-- Function `startProcess()`, from the reply to `POST /api/start` on. -/
def startProcess (reply : Reply) (w : World) : World :=
  match reply with
  | .rejected m => reportFailure (.rejected m) w
  | .json result =>
    if result.isNullish then reportFailure .typeError w
    else if (prop result "success").truthy then
      match updateUI { w with state := { w.state with isRunning := true } } with
      | .ok w => final (addLog (.str "success") (.lit "已开始执行抢购流程") w)
      | .error w => reportFailure .typeError w
    else
      match addLog (.str "error") (.concat "启动失败: " (prop result "message")) w with
      | .ok w => w.alert (.concat "启动失败: " (prop result "message"))
      | .error w => reportFailure .typeError w

/-- The `catch` block of `stopProcess`. -/
def logFailure (e : Failure) (w : World) : World :=
  final (addLog (.str "error") (.caught "请求失败: " e) w)

/-- Function `stopProcess()`, from the reply to `POST /api/stop` on. -/
def stopProcess (reply : Reply) (w : World) : World :=
  match reply with
  | .rejected m => logFailure (.rejected m) w
  | .json result =>
    if result.isNullish then logFailure .typeError w
    else if (prop result "success").truthy then
      match updateUI { w with state := { w.state with isRunning := false } } with
      | .ok w => final (addLog (.str "warning") (.lit "已停止执行") w)
      | .error w => logFailure .typeError w
    else
      match addLog (.str "error") (.concat "停止失败: " (prop result "message")) w with
      | .ok w => w
      | .error w => logFailure .typeError w

/-! ## Connection and reconnection timer -/

/-- The transport side of the page: the variables `ws` and `reconnectTimer`,
the sockets that have been created and have not closed yet, and the timeouts
that have been set and have not fired yet. Sockets and timeouts are named by
numbers drawn from one counter. -/
structure Conn where
  ws : Option Nat
  reconnectTimer : Option Nat
  sockets : List Nat
  timers : List Nat
  fresh : Nat
deriving DecidableEq

/-- The page together with its transport side. -/
structure Page where
  world : World
  conn : Conn

/-- The page when the script has been loaded and `DOMContentLoaded` has not fired. -/
def Page.initial : Page where
  world := World.initial
  conn := { ws := none, reconnectTimer := none, sockets := [], timers := [], fresh := 0 }

/-- Function `initWebSocket()`: a new socket is created and stored in `ws`;
nothing is done about `reconnectTimer`. -/
def initWebSocket (p : Page) : Page :=
  { p with conn := { p.conn with
      ws := some p.conn.fresh
      sockets := p.conn.fresh :: p.conn.sockets
      fresh := p.conn.fresh + 1 } }

/-- Handler `ws.onopen`. -/
def onopen (p : Page) : Page :=
  { p with world := final (addLog (.str "info") (.lit "已连接到服务器") p.world) }

/-- Handler `ws.onmessage`, for a message that parses to an object. -/
def onmessage (data : Obj) (p : Page) : Page :=
  { p with world := final (handleWebSocketMessage data p.world) }

/-- Handler `ws.onerror`. -/
def onerror (p : Page) : Page :=
  { p with world := final (addLog (.str "error") (.lit "WebSocket连接错误") p.world) }

/-- Handler `ws.onclose` of the socket `socket`: a warning is logged and
`setTimeout(initWebSocket, 5000)` is stored in `reconnectTimer`. -/
def onclose (socket : Nat) (p : Page) : Page :=
  { world := final (addLog (.str "warning") (.lit "连接已断开，正在重连...") p.world)
    conn := { p.conn with
      reconnectTimer := some p.conn.fresh
      sockets := p.conn.sockets.erase socket
      timers := p.conn.fresh :: p.conn.timers
      fresh := p.conn.fresh + 1 } }

/-- The timeout `timer` fires: it stops being pending and runs `initWebSocket`. -/
def timerFires (timer : Nat) (p : Page) : Page :=
  initWebSocket { p with conn := { p.conn with timers := p.conn.timers.erase timer } }

/-- The events of the connection state machine. -/
inductive ConnEvent where
  | init
  | close (socket : Nat)
  | timer (id : Nat)
deriving DecidableEq

/-- One event. A socket closes once, and only after it was created; a timeout
fires once, and only after it was set. -/
def connStep (p : Page) : ConnEvent → Option Page
  | .init => some (initWebSocket p)
  | .close socket => if socket ∈ p.conn.sockets then some (onclose socket p) else none
  | .timer id => if id ∈ p.conn.timers then some (timerFires id p) else none

/-- A sequence of events, from the left. -/
def connRun (p : Page) : List ConnEvent → Option Page
  | [] => some p
  | e :: es =>
    match connStep p e with
    | some q => connRun q es
    | none => none

/-! ## Notions used to state the properties -/

/-- The `address` block of `updateStatus(data)` returns. -/
def pastAddress (data : Obj) : Bool :=
  !(get data "address").truthy || !displayAddressThrows (get data "address")

/-- The blocks of `updateStatus(data)` up to `goodsList` return. -/
def pastGoodsList (data : Obj) : Bool :=
  pastAddress data && (!(get data "goodsList").truthy || lengthIsZero (get data "goodsList")
    || !goodsMapThrows (get data "goodsList"))

/-- The blocks of `updateStatus(data)` up to `timeSlots` return. -/
def pastTimeSlots (data : Obj) : Bool :=
  pastGoodsList data && (!(get data "timeSlots").truthy || lengthIsZero (get data "timeSlots")
    || !timeSlotsMapThrows (get data "timeSlots"))

/-- Whether the panel calls `updateStatus(data)` makes all return: each of
`address`, `goodsList`, `timeSlots` and `order` is falsy or renders. -/
def panelsComplete (data : Obj) : Bool :=
  pastTimeSlots data
    && (!(get data "order").truthy || !displayOrderThrows (get data "order"))

/-- The canonical state `updateStatus(data)` leaves, field by field: a field is
assigned when its block is reached and the value carried for it is truthy. -/
def reconcile (data : Obj) (s : State) : State where
  isRunning :=
    if (get data "status").truthy then (get data "status").strictEqStr "running" else s.isRunning
  currentStep := if (get data "step").truthy then get data "step" else s.currentStep
  address := if (get data "address").truthy then get data "address" else s.address
  stores :=
    if pastAddress data && (get data "stores").truthy then get data "stores" else s.stores
  goodsList :=
    if pastAddress data && (get data "goodsList").truthy then get data "goodsList"
    else s.goodsList
  timeSlots :=
    if pastGoodsList data && (get data "timeSlots").truthy then get data "timeSlots"
    else s.timeSlots
  order :=
    if pastTimeSlots data && (get data "order").truthy then get data "order" else s.order

/-- Deliver the fragments one at a time, each in its own call of `updateStatus`. -/
def applyAll (fs : List Obj) (w : World) : World :=
  fs.foldl (fun w f => final (updateStatus f w)) w

/-- The concatenation of a sequence of fragments: the properties of a later
fragment come before those of an earlier one, so that each key reads as in the
last fragment that carries it. -/
def concatFragments : List Obj → Obj
  | [] => []
  | f :: fs => concatFragments fs ++ f

/-- The envelope `{success: true, data: f}` of `GET /api/status`. -/
def statusEnvelope (f : Obj) : JSVal :=
  .obj [("success", .bool true), ("data", .obj f)]

/-- The keys of a status fragment: the canonical fields (with `currentStep`
carried as `step`), `status` and `error`. -/
def statusFragmentKeys : List String :=
  ["step", "status", "address", "stores", "goodsList", "timeSlots", "order", "error"]

/-- A status fragment carries only keys of `statusFragmentKeys`. -/
def isStatusFragment (f : Obj) : Bool :=
  f.all (fun kv => statusFragmentKeys.contains kv.1)

/-- The address of a canonical state is absent (`null`) or a value that counts
as present; `updateStatus` stores no other. -/
def State.addressCanonical (s : State) : Bool :=
  match s.address with
  | .null => true
  | v => v.truthy

/-! ## Basic facts -/

theorem emit_state (w : World) (c : RenderCmd) : (w.emit c).state = w.state := rfl

theorem alert_state (w : World) (t : Text) : (w.alert t).state = w.state := rfl

theorem final_ok (w : World) : final (.ok w) = w := rfl

theorem final_error (w : World) : final (.error w) = w := rfl

theorem addLog_state (level : JSVal) (message : Text) (w : World) :
    (final (addLog level message w)).state = w.state := by
  unfold addLog
  split
  · split <;> rfl
  · rfl

theorem displayAddress_state (v : JSVal) (w : World) :
    (final (displayAddress v w)).state = w.state := by
  unfold displayAddress
  dsimp only
  split <;> rfl

theorem displayGoods_state (v : JSVal) (w : World) :
    (final (displayGoods v w)).state = w.state := by
  unfold displayGoods
  dsimp only
  split
  · rfl
  · split <;> rfl

theorem displayTimeSlots_state (v : JSVal) (w : World) :
    (final (displayTimeSlots v w)).state = w.state := by
  unfold displayTimeSlots
  dsimp only
  split
  · rfl
  · split <;> rfl

theorem displayOrder_state (v : JSVal) (w : World) :
    (final (displayOrder v w)).state = w.state := by
  unfold displayOrder
  dsimp only
  split
  · rfl
  · split <;> rfl

theorem updateSteps_state (w : World) : (final (updateSteps w)).state = w.state := by
  unfold updateSteps
  split <;> rfl

theorem updateUI_state (w : World) : (final (updateUI w)).state = w.state := by
  unfold updateUI
  rw [updateSteps_state]
  rfl


theorem applyAddress_state (data : Obj) (w : World) :
    (final (applyAddress data w)).state = { w.state with address :=
      (if (get data "address").truthy then (get data "address") else w.state.address) } := by
  unfold applyAddress
  split
  · rw [displayAddress_state]
  · rfl

theorem applyAddress_returns (data : Obj) (w : World) :
    returns (applyAddress data w) = pastAddress data := by
  unfold applyAddress pastAddress displayAddress
  cases (get data "address").truthy <;> cases displayAddressThrows (get data "address") <;> rfl

theorem applyGoodsList_state (data : Obj) (w : World) :
    (final (applyGoodsList data w)).state = { w.state with goodsList :=
      (if (get data "goodsList").truthy then (get data "goodsList") else w.state.goodsList) } := by
  unfold applyGoodsList
  split
  · rw [displayGoods_state]
  · rfl

theorem applyGoodsList_returns (data : Obj) (w : World) :
    returns (applyGoodsList data w) = (!(get data "goodsList").truthy
      || lengthIsZero (get data "goodsList") || !goodsMapThrows (get data "goodsList")) := by
  unfold applyGoodsList displayGoods
  cases (get data "goodsList").truthy <;> cases lengthIsZero (get data "goodsList") <;>
    cases goodsMapThrows (get data "goodsList") <;> rfl

theorem applyTimeSlots_state (data : Obj) (w : World) :
    (final (applyTimeSlots data w)).state = { w.state with timeSlots :=
      (if (get data "timeSlots").truthy then (get data "timeSlots") else w.state.timeSlots) } := by
  unfold applyTimeSlots
  split
  · rw [displayTimeSlots_state]
  · rfl

theorem applyTimeSlots_returns (data : Obj) (w : World) :
    returns (applyTimeSlots data w) = (!(get data "timeSlots").truthy
      || lengthIsZero (get data "timeSlots") || !timeSlotsMapThrows (get data "timeSlots")) := by
  unfold applyTimeSlots displayTimeSlots
  cases (get data "timeSlots").truthy <;> cases lengthIsZero (get data "timeSlots") <;>
    cases timeSlotsMapThrows (get data "timeSlots") <;> rfl

theorem applyOrder_state (data : Obj) (w : World) :
    (final (applyOrder data w)).state = { w.state with order :=
      (if (get data "order").truthy then (get data "order") else w.state.order) } := by
  unfold applyOrder
  split
  · rw [displayOrder_state]
  · rfl

theorem reportError_state (data : Obj) (w : World) :
    (final (reportError data w)).state = w.state := by
  unfold reportError
  split
  · rw [addLog_state]
  · rfl

theorem applyStep_state (data : Obj) (w : World) :
    (applyStep data w).state = { w.state with currentStep :=
      (if (get data "step").truthy then (get data "step") else w.state.currentStep) } := by
  unfold applyStep
  split <;> rfl

theorem applyStatus_state (data : Obj) (w : World) :
    (applyStatus data w).state = { w.state with isRunning :=
      (if (get data "status").truthy then (get data "status").strictEqStr "running"
      else w.state.isRunning) } := by
  unfold applyStatus
  split <;> rfl

theorem applyStores_state (data : Obj) (w : World) :
    (applyStores data w).state = { w.state with stores :=
      (if (get data "stores").truthy then (get data "stores") else w.state.stores) } := by
  unfold applyStores
  split <;> rfl

/-- The canonical state after `updateStatus(data)` is `reconcile data` of the one before. -/
theorem updateStatus_state (data : Obj) (w : World) :
    (final (updateStatus data w)).state = reconcile data w.state := by
  have e1 := applyStep_state data w
  have e2 := applyStatus_state data (applyStep data w)
  have e3 := applyAddress_state data (applyStatus data (applyStep data w))
  have r3 := applyAddress_returns data (applyStatus data (applyStep data w))
  unfold updateStatus
  simp only [bind, Except.bind]
  cases h3 : applyAddress data (applyStatus data (applyStep data w)) with
  | error w3 =>
    rw [h3] at e3 r3
    simp only [final_error, returns] at e3 r3 ⊢
    rw [e3, e2, e1]
    simp [reconcile, ← r3, pastGoodsList, pastTimeSlots]
  | ok w3 =>
    rw [h3] at e3 r3
    simp only [final_ok, returns] at e3 r3 ⊢
    have e4 := applyStores_state data w3
    have e5 := applyGoodsList_state data (applyStores data w3)
    have r5 := applyGoodsList_returns data (applyStores data w3)
    cases h5 : applyGoodsList data (applyStores data w3) with
    | error w5 =>
      rw [h5] at e5 r5
      simp only [final_error, returns] at e5 r5 ⊢
      rw [e5, e4, e3, e2, e1]
      simp [reconcile, ← r3, ← r5, pastGoodsList, pastTimeSlots]
    | ok w5 =>
      rw [h5] at e5 r5
      simp only [final_ok, returns] at e5 r5 ⊢
      have e6 := applyTimeSlots_state data w5
      have r6 := applyTimeSlots_returns data w5
      cases h6 : applyTimeSlots data w5 with
      | error w6 =>
        rw [h6] at e6 r6
        simp only [final_error, returns] at e6 r6 ⊢
        rw [e6, e5, e4, e3, e2, e1]
        simp [reconcile, ← r3, ← r5, ← r6, pastGoodsList, pastTimeSlots]
      | ok w6 =>
        rw [h6] at e6 r6
        simp only [final_ok, returns] at e6 r6 ⊢
        have e7 := applyOrder_state data w6
        cases h7 : applyOrder data w6 with
        | error w7 =>
          rw [h7] at e7
          simp only [final_error] at e7 ⊢
          rw [e7, e6, e5, e4, e3, e2, e1]
          simp [reconcile, ← r3, ← r5, ← r6, pastGoodsList, pastTimeSlots]
        | ok w7 =>
          rw [h7] at e7
          simp only [final_ok] at e7 ⊢
          have e8 := reportError_state data w7
          cases h8 : reportError data w7 with
          | error w8 =>
            rw [h8] at e8
            simp only [final_error] at e8 ⊢
            rw [e8, e7, e6, e5, e4, e3, e2, e1]
            simp [reconcile, ← r3, ← r5, ← r6, pastGoodsList, pastTimeSlots]
          | ok w8 =>
            rw [h8] at e8
            simp only [final_ok] at e8 ⊢
            rw [updateUI_state, e8, e7, e6, e5, e4, e3, e2, e1]
            simp [reconcile, ← r3, ← r5, ← r6, pastGoodsList, pastTimeSlots]

theorem panelsComplete_pastTimeSlots (f : Obj) (h : panelsComplete f = true) :
    pastTimeSlots f = true := by
  unfold panelsComplete at h
  simp only [Bool.and_eq_true] at h
  exact h.1

theorem pastTimeSlots_pastGoodsList (f : Obj) (h : pastTimeSlots f = true) :
    pastGoodsList f = true := by
  unfold pastTimeSlots at h
  simp only [Bool.and_eq_true] at h
  exact h.1

theorem pastGoodsList_pastAddress (f : Obj) (h : pastGoodsList f = true) :
    pastAddress f = true := by
  unfold pastGoodsList at h
  simp only [Bool.and_eq_true] at h
  exact h.1

/-- When every panel call returns, `reconcile` assigns exactly the truthy values. -/
theorem reconcile_of_panelsComplete (f : Obj) (s : State) (h : panelsComplete f = true) :
    reconcile f s =
      { isRunning :=
          if (get f "status").truthy then (get f "status").strictEqStr "running" else s.isRunning
        currentStep := if (get f "step").truthy then (get f "step") else s.currentStep
        address := if (get f "address").truthy then (get f "address") else s.address
        stores := if (get f "stores").truthy then (get f "stores") else s.stores
        goodsList := if (get f "goodsList").truthy then (get f "goodsList") else s.goodsList
        timeSlots := if (get f "timeSlots").truthy then (get f "timeSlots") else s.timeSlots
        order := if (get f "order").truthy then (get f "order") else s.order } := by
  have h3 := panelsComplete_pastTimeSlots f h
  have h2 := pastTimeSlots_pastGoodsList f h3
  have h1 := pastGoodsList_pastAddress f h2
  simp [reconcile, h1, h2, h3]

/-! ## C1: fields carried by a fragment -/

/-- C1, amended: when the panel calls made by `updateStatus(f)` return, each of
`currentStep` (carried as `step`), `address`, `stores`, `goodsList`, `timeSlots`
and `order` holds afterwards exactly the value `f` carries for it if that value
is truthy and keeps its old value otherwise, and `isRunning` equals
`status === "running"` if `f` carries a truthy `status` and is unchanged
otherwise. -/
theorem updateStatus_stores_truthy_fields (w : World) (f : Obj)
    (h : panelsComplete f = true) :
    (final (updateStatus f w)).state.currentStep
        = (if (get f "step").truthy then (get f "step") else w.state.currentStep)
      ∧ (final (updateStatus f w)).state.address
        = (if (get f "address").truthy then (get f "address") else w.state.address)
      ∧ (final (updateStatus f w)).state.stores
        = (if (get f "stores").truthy then (get f "stores") else w.state.stores)
      ∧ (final (updateStatus f w)).state.goodsList
        = (if (get f "goodsList").truthy then (get f "goodsList") else w.state.goodsList)
      ∧ (final (updateStatus f w)).state.timeSlots
        = (if (get f "timeSlots").truthy then (get f "timeSlots") else w.state.timeSlots)
      ∧ (final (updateStatus f w)).state.order
        = (if (get f "order").truthy then (get f "order") else w.state.order)
      ∧ (final (updateStatus f w)).state.isRunning
        = (if (get f "status").truthy then (get f "status").strictEqStr "running"
            else w.state.isRunning) := by
  rw [updateStatus_state, reconcile_of_panelsComplete f w.state h]
  exact ⟨rfl, rfl, rfl, rfl, rfl, rfl, rfl⟩

/-- Witness of C1, amended: a fragment with a step, a status and an address on the fresh page. -/
theorem updateStatus_stores_truthy_fields_witness :
    panelsComplete [("step", .str "checking_stores"), ("status", .str "running"),
        ("address", .obj [("name", .str "A"), ("mobile", .str "123")])] = true
      ∧ (final (updateStatus [("step", .str "checking_stores"), ("status", .str "running"),
          ("address", .obj [("name", .str "A"), ("mobile", .str "123")])]
          World.initial)).state.currentStep = .str "checking_stores"
      ∧ (final (updateStatus [("step", .str "checking_stores"), ("status", .str "running"),
          ("address", .obj [("name", .str "A"), ("mobile", .str "123")])]
          World.initial)).state.isRunning = true :=
  ⟨by decide,
    (updateStatus_stores_truthy_fields World.initial _ (by decide)).1,
    (updateStatus_stores_truthy_fields World.initial _ (by decide)).2.2.2.2.2.2⟩

/-- C1 fails as stated. A fragment that carries `order: null` leaves the order
that was stored before (the block is guarded by `if (data.order)`), and a
fragment that carries a string for `timeSlots` and an order stores the string,
throws in `displayTimeSlots` (`timeSlots.map` is not a function) and never
reaches the order. -/
theorem updateStatus_present_field_counterexample :
    (([("order", JSVal.null)] : Obj).lookup "order" = some JSVal.null
      ∧ (final (updateStatus [("order", .null)]
          (final (updateStatus [("order", .obj [("orderNo", .str "A1")])]
            World.initial)))).state.order = .obj [("orderNo", .str "A1")]
      ∧ JSVal.obj [("orderNo", .str "A1")] ≠ JSVal.null)
    ∧ (([("timeSlots", JSVal.str "soon"), ("order", JSVal.obj [("orderNo", .str "A1")])]
          : Obj).lookup "order" = some (JSVal.obj [("orderNo", .str "A1")])
      ∧ (final (updateStatus [("timeSlots", .str "soon"),
          ("order", .obj [("orderNo", .str "A1")])] World.initial)).state.order = .null
      ∧ JSVal.null ≠ JSVal.obj [("orderNo", .str "A1")]) :=
  ⟨⟨rfl, rfl, by simp⟩, rfl, rfl, by simp⟩

/-! ## C2: fields absent from a fragment -/

/-- C2: `updateStatus(f)` leaves every canonical field unchanged whose key is
absent from `f` (reads as `undefined`): `isRunning` for `status`, `currentStep`
for `step`, and `address`, `stores`, `goodsList`, `timeSlots`, `order` for their
own keys; a fragment that carries none of these keys, such as one with only an
`error` field, leaves the whole canonical state as it was. -/
theorem updateStatus_frame (w : World) (f : Obj) :
    (get f "status" = .undefined →
        (final (updateStatus f w)).state.isRunning = w.state.isRunning)
      ∧ (get f "step" = .undefined →
        (final (updateStatus f w)).state.currentStep = w.state.currentStep)
      ∧ (get f "address" = .undefined →
        (final (updateStatus f w)).state.address = w.state.address)
      ∧ (get f "stores" = .undefined →
        (final (updateStatus f w)).state.stores = w.state.stores)
      ∧ (get f "goodsList" = .undefined →
        (final (updateStatus f w)).state.goodsList = w.state.goodsList)
      ∧ (get f "timeSlots" = .undefined →
        (final (updateStatus f w)).state.timeSlots = w.state.timeSlots)
      ∧ (get f "order" = .undefined →
        (final (updateStatus f w)).state.order = w.state.order)
      ∧ ((∀ k ∈ ["status", "step", "address", "stores", "goodsList", "timeSlots", "order"],
          get f k = .undefined) → (final (updateStatus f w)).state = w.state) := by
  rw [updateStatus_state]
  refine ⟨?_, ?_, ?_, ?_, ?_, ?_, ?_, ?_⟩
  · intro h; simp [reconcile, h, JSVal.truthy]
  · intro h; simp [reconcile, h, JSVal.truthy]
  · intro h; simp [reconcile, h, JSVal.truthy]
  · intro h; simp [reconcile, h, JSVal.truthy]
  · intro h; simp [reconcile, h, JSVal.truthy]
  · intro h; simp [reconcile, h, JSVal.truthy]
  · intro h; simp [reconcile, h, JSVal.truthy]
  · intro h
    have h1 := h "status" (by simp)
    have h2 := h "step" (by simp)
    have h3 := h "address" (by simp)
    have h4 := h "stores" (by simp)
    have h5 := h "goodsList" (by simp)
    have h6 := h "timeSlots" (by simp)
    have h7 := h "order" (by simp)
    simp [reconcile, h1, h2, h3, h4, h5, h6, h7, JSVal.truthy]

/-- Witness of C2: the fragment `{error: "timeout"}` on a page that has an address. -/
theorem updateStatus_frame_witness :
    (final (updateStatus [("error", .str "timeout")]
        (final (updateStatus [("address", .obj [("name", .str "A")])] World.initial)))).state
      = (final (updateStatus [("address", .obj [("name", .str "A")])] World.initial)).state :=
  (updateStatus_frame _ [("error", .str "timeout")]).2.2.2.2.2.2.2 (by
    intro k hk
    simp only [List.mem_cons, List.mem_singleton, List.not_mem_nil, or_false] at hk
    rcases hk with rfl | rfl | rfl | rfl | rfl | rfl | rfl <;> rfl)

/-! ## C9: idempotence -/

/-- C9: delivering the same fragment twice leaves the canonical state that one
delivery leaves. -/
theorem updateStatus_idempotent (w : World) (f : Obj) :
    (final (updateStatus f (final (updateStatus f w)))).state
      = (final (updateStatus f w)).state := by
  rw [updateStatus_state, updateStatus_state]
  simp only [reconcile]
  congr 1 <;> split <;> rfl

/-! ## C3: the view -/

theorem strictEqStr_eq_true (v : JSVal) (s : String) :
    v.strictEqStr s = true ↔ v = .str s := by
  cases v <;> simp [JSVal.strictEqStr]

theorem addressCanonical_not_truthy (s : State) (h : s.addressCanonical = true) :
    s.address.truthy = false ↔ s.address = .null := by
  unfold State.addressCanonical at h
  constructor
  · intro ht
    cases ha : s.address <;> rw [ha] at h ht <;> simp_all
  · intro hn
    rw [hn]; rfl

/-- The address of the fresh state is canonical. -/
theorem initial_addressCanonical : State.initial.addressCanonical = true := rfl

/-- The state `updateStatus` leaves has a canonical address if it had one before. -/
theorem reconcile_addressCanonical (f : Obj) (s : State) (h : s.addressCanonical = true) :
    (reconcile f s).addressCanonical = true := by
  unfold State.addressCanonical at h ⊢
  simp only [reconcile]
  cases ht : (get f "address").truthy
  · simpa using h
  · simp only [if_true]
    cases ha : get f "address" <;> rw [ha] at ht <;> simp_all [JSVal.truthy]

/-- C3: `updateUI` writes the view `updateUIView` of the canonical state, and
that view follows the three rules in order: running gives indicator `running`,
start disabled, stop enabled; otherwise the step `order_success` gives indicator
`success`, start disabled, stop enabled; otherwise the indicator is `stopped`,
stop is disabled and start is disabled exactly when the address is absent. -/
theorem updateUI_view_rules (w : World) (hc : w.state.addressCanonical = true) :
    (∃ rest, (final (updateUI w)).render
        = w.render ++ RenderCmd.status (updateUIView w.state) :: rest)
      ∧ (w.state.isRunning = true →
        (updateUIView w.state).indicator = "running"
          ∧ (updateUIView w.state).startDisabled = true
          ∧ (updateUIView w.state).stopDisabled = false)
      ∧ (w.state.isRunning = false → w.state.currentStep = .str "order_success" →
        (updateUIView w.state).indicator = "success"
          ∧ (updateUIView w.state).startDisabled = true
          ∧ (updateUIView w.state).stopDisabled = false)
      ∧ (w.state.isRunning = false → w.state.currentStep ≠ .str "order_success" →
        (updateUIView w.state).indicator = "stopped"
          ∧ (updateUIView w.state).stopDisabled = true
          ∧ ((updateUIView w.state).startDisabled = true ↔ w.state.address = .null)) := by
  refine ⟨?_, ?_, ?_, ?_⟩
  · unfold updateUI updateSteps
    split
    · exact ⟨[], by simp [World.emit, final]⟩
    · exact ⟨[.steps (stepFor w.state.currentStep.toStr) w.state.isRunning
        (w.state.currentStep.strictEqStr "order_success")], by simp [World.emit, final]⟩
  · intro hr
    simp [updateUIView, hr]
  · intro hr hs
    simp [updateUIView, hr, hs, JSVal.strictEqStr]
  · intro hr hs
    have hne : w.state.currentStep.strictEqStr "order_success" = false := by
      cases hb : w.state.currentStep.strictEqStr "order_success"
      · rfl
      · exact absurd ((strictEqStr_eq_true _ _).1 hb) hs
    simp only [updateUIView, hr, hne, Bool.false_eq_true, if_false, true_and]
    rw [← addressCanonical_not_truthy w.state hc]
    simp

/-- Witness of C3: the fresh page (scenario 1: start and stop disabled, indicator `stopped`). -/
theorem updateUI_view_rules_witness :
    (updateUIView World.initial.state).indicator = "stopped"
      ∧ (updateUIView World.initial.state).stopDisabled = true
      ∧ ((updateUIView World.initial.state).startDisabled = true
        ↔ World.initial.state.address = .null) :=
  (updateUI_view_rules World.initial rfl).2.2.2 rfl (by
    show JSVal.str "idle" ≠ JSVal.str "order_success"
    simp)

/-! ## C10: ping -/

/-- C10: a message whose `type` is `"ping"` makes `handleWebSocketMessage`
return at once: the page (canonical state, log, document) is left as it was,
whatever else the message carries. -/
theorem handleWebSocketMessage_ping (w : World) (data : Obj)
    (h : get data "type" = .str "ping") :
    handleWebSocketMessage data w = .ok w := by
  unfold handleWebSocketMessage
  simp [h, JSVal.strictEqStr]
  rfl

/-- Witness of C10: a ping that also carries a step, a log line and an error. -/
theorem handleWebSocketMessage_ping_witness :
    handleWebSocketMessage [("type", .str "ping"), ("step", .str "starting"),
        ("time", .str "12:00"), ("level", .str "info"), ("message", .str "hello"),
        ("error", .str "timeout")] World.initial = .ok World.initial :=
  handleWebSocketMessage_ping World.initial _ rfl

/-! ## C4: snapshot path and transport path -/

theorem get_of_not_key (f : Obj) (k : String) (h : ∀ kv ∈ f, kv.1 ≠ k) :
    get f k = .undefined := by
  unfold get
  have hl : f.lookup k = none := by
    induction f with
    | nil => rfl
    | cons kv f ih =>
      obtain ⟨k1, v1⟩ := kv
      have h1 : k1 ≠ k := h (k1, v1) (List.mem_cons_self _ _)
      have h2 : (k == k1) = false := by
        simp only [beq_eq_false_iff_ne, ne_eq]
        exact fun e => h1 e.symm
      rw [List.lookup_cons, h2]
      exact ih (fun kv hkv => h kv (List.mem_cons_of_mem _ hkv))
  rw [hl]

theorem get_statusFragment (f : Obj) (k : String) (hf : isStatusFragment f = true)
    (hk : k ∉ statusFragmentKeys) : get f k = .undefined := by
  apply get_of_not_key
  intro kv hkv e
  unfold isStatusFragment at hf
  rw [List.all_eq_true] at hf
  have := hf kv hkv
  rw [e] at this
  exact hk (by simpa using this)

/-- C4, amended: for every status fragment `f`, the snapshot path (`loadStatus`
on the envelope `{success: true, data: f}`) applies `f` with `updateStatus`.
When `f` carries a `step` field the transport path (`handleWebSocketMessage(f)`)
leaves the same page: the same canonical state, log entries and writes to the
document. When `f` carries no `step` field the transport path ignores it and
returns the page as it was. -/
theorem loadStatus_eq_handleWebSocketMessage (w : World) (f : Obj)
    (hf : isStatusFragment f = true) :
    loadStatus (.json (statusEnvelope f)) w = final (updateStatus f w)
      ∧ ((get f "step").isDefined = true →
        loadStatus (.json (statusEnvelope f)) w = final (handleWebSocketMessage f w))
      ∧ ((get f "step").isDefined = false → handleWebSocketMessage f w = .ok w) := by
  have h1 : get f "type" = .undefined := get_statusFragment f "type" hf (by decide)
  have h2 : get f "time" = .undefined := get_statusFragment f "time" hf (by decide)
  have e1 : loadStatus (.json (statusEnvelope f)) w = final (updateStatus f w) := rfl
  refine ⟨e1, ?_, ?_⟩
  · intro hs
    have e2 : handleWebSocketMessage f w = updateStatus f w := by
      unfold handleWebSocketMessage
      simp [h1, h2, hs, JSVal.strictEqStr, JSVal.truthy]
    rw [e1, e2]
  · intro hs
    unfold handleWebSocketMessage
    simp [h1, h2, hs, JSVal.strictEqStr, JSVal.truthy]
    rfl

/-- Witness of C4, amended: the fragment of scenario 3, which carries a step,
and the fragment of scenario 2, which carries an address and no step. -/
theorem loadStatus_eq_handleWebSocketMessage_witness :
    loadStatus (.json (statusEnvelope [("status", .str "running"),
        ("step", .str "checking_stores")])) World.initial
      = final (handleWebSocketMessage [("status", .str "running"),
        ("step", .str "checking_stores")] World.initial)
    ∧ loadStatus (.json (statusEnvelope
        [("address", .obj [("name", .str "A"), ("mobile", .str "123")])])) World.initial
      = final (updateStatus
        [("address", .obj [("name", .str "A"), ("mobile", .str "123")])] World.initial)
    ∧ handleWebSocketMessage
        [("address", .obj [("name", .str "A"), ("mobile", .str "123")])] World.initial
      = .ok World.initial :=
  ⟨(loadStatus_eq_handleWebSocketMessage World.initial _ (by decide)).2.1 rfl,
    (loadStatus_eq_handleWebSocketMessage World.initial _ (by decide)).1,
    (loadStatus_eq_handleWebSocketMessage World.initial _ (by decide)).2.2 rfl⟩

/-- C4 fails as stated: the status fragment `{address: {name: "A", mobile: "123"}}`
has no `step`, so `handleWebSocketMessage` does not call `updateStatus` and the
address stays `null`, while `loadStatus` stores the address. -/
theorem loadStatus_handleWebSocketMessage_counterexample :
    isStatusFragment [("address", .obj [("name", .str "A"), ("mobile", .str "123")])] = true
      ∧ (loadStatus (.json (statusEnvelope
          [("address", .obj [("name", .str "A"), ("mobile", .str "123")])]))
          World.initial).state.address = .obj [("name", .str "A"), ("mobile", .str "123")]
      ∧ (final (handleWebSocketMessage
          [("address", .obj [("name", .str "A"), ("mobile", .str "123")])]
          World.initial)).state.address = .null
      ∧ JSVal.obj [("name", .str "A"), ("mobile", .str "123")] ≠ JSVal.null :=
  ⟨by decide, rfl, rfl, by simp⟩

/-! ## C7: who writes the canonical state -/

theorem reportFailure_state (e : Failure) (w : World) : (reportFailure e w).state = w.state := by
  unfold reportFailure
  rw [alert_state, addLog_state]

theorem logFailure_state (e : Failure) (w : World) : (logFailure e w).state = w.state := by
  unfold logFailure
  rw [addLog_state]

theorem state_of_ok {x : Except World World} {w1 : World} (h : x = .ok w1) :
    w1.state = (final x).state := by
  rw [h]; rfl

theorem state_of_error {x : Except World World} {w1 : World} (h : x = .error w1) :
    w1.state = (final x).state := by
  rw [h]; rfl

theorem saveConfig_state (reply : Reply) (w : World) : (saveConfig reply w).state = w.state := by
  unfold saveConfig
  split
  · exact reportFailure_state _ _
  · split
    · exact reportFailure_state _ _
    · split
      · dsimp only
        split
        · rename_i w1 h
          rw [emit_state, state_of_ok h]
          split
          · rw [displayAddress_state, addLog_state]
          · rw [final_ok, addLog_state]
        · rename_i w1 h
          rw [reportFailure_state, state_of_error h]
          split
          · rw [displayAddress_state, addLog_state]
          · rw [final_ok, addLog_state]
      · split
        · rename_i w1 h
          rw [alert_state, state_of_ok h, addLog_state]
        · rename_i w1 h
          rw [reportFailure_state, state_of_error h, addLog_state]

/-- The canonical state `startProcess` and `stopProcess` leave: `isRunning` is
assigned `b` when the reply is an object whose `success` is truthy. -/
theorem startProcess_state (reply : Reply) (w : World) :
    (startProcess reply w).state =
      match reply with
      | .rejected _ => w.state
      | .json result =>
        if !result.isNullish && (prop result "success").truthy then
          { w.state with isRunning := true }
        else w.state := by
  unfold startProcess
  split
  · exact reportFailure_state _ _
  · rename_i result
    cases hn : result.isNullish
    · cases hs : (prop result "success").truthy
      · simp only [Bool.false_eq_true, if_false, Bool.not_false, Bool.and_false]
        split
        · rename_i w1 h
          rw [alert_state, state_of_ok h, addLog_state]
        · rename_i w1 h
          rw [reportFailure_state, state_of_error h, addLog_state]
      · simp only [Bool.false_eq_true, if_false, if_true, Bool.not_false, Bool.and_true]
        split
        · rename_i w1 h
          rw [addLog_state, state_of_ok h, updateUI_state]
        · rename_i w1 h
          rw [reportFailure_state, state_of_error h, updateUI_state]
    · simp only [if_true, Bool.not_true, Bool.false_and, Bool.false_eq_true, if_false]
      exact reportFailure_state _ _

theorem stopProcess_state (reply : Reply) (w : World) :
    (stopProcess reply w).state =
      match reply with
      | .rejected _ => w.state
      | .json result =>
        if !result.isNullish && (prop result "success").truthy then
          { w.state with isRunning := false }
        else w.state := by
  unfold stopProcess
  split
  · exact logFailure_state _ _
  · rename_i result
    cases hn : result.isNullish
    · cases hs : (prop result "success").truthy
      · simp only [Bool.false_eq_true, if_false, Bool.not_false, Bool.and_false]
        split
        · rename_i w1 h
          rw [state_of_ok h, addLog_state]
        · rename_i w1 h
          rw [logFailure_state, state_of_error h, addLog_state]
      · simp only [Bool.false_eq_true, if_false, if_true, Bool.not_false, Bool.and_true]
        split
        · rename_i w1 h
          rw [addLog_state, state_of_ok h, updateUI_state]
        · rename_i w1 h
          rw [logFailure_state, state_of_error h, updateUI_state]
    · simp only [if_true, Bool.not_true, Bool.false_and, Bool.false_eq_true, if_false]
      exact logFailure_state _ _

/-- The state `updateStatus` leaves depends on the page only through its state. -/
theorem updateStatus_state_congr (data : Obj) (w1 w2 : World) (h : w1.state = w2.state) :
    (final (updateStatus data w1)).state = (final (updateStatus data w2)).state := by
  rw [updateStatus_state, updateStatus_state, h]

theorem handleWebSocketMessage_state (data : Obj) (w : World) :
    (final (handleWebSocketMessage data w)).state =
      if !(get data "type").strictEqStr "ping" && (get data "step").isDefined
          && !((get data "time").truthy && (get data "level").truthy
            && (get data "message").truthy
            && !returns (addLog (get data "level") (.ofValue (get data "message")) w)) then
        (final (updateStatus data w)).state
      else w.state := by
  unfold handleWebSocketMessage
  cases hp : (get data "type").strictEqStr "ping"
  · cases hl : ((get data "time").truthy && (get data "level").truthy
        && (get data "message").truthy)
    · cases hs : (get data "step").isDefined
      · simp [hl, bind, Except.bind, pure, Except.pure, final_ok]
      · simp [hl, bind, Except.bind, pure, Except.pure, final_ok]
    · cases ha : addLog (get data "level") (.ofValue (get data "message")) w with
      | error w1 =>
        simp [hl, bind, Except.bind, returns]
        exact state_of_error ha ▸ addLog_state _ _ _
      | ok w1 =>
        have hw : w1.state = w.state := state_of_ok ha ▸ addLog_state _ _ _
        cases hs : (get data "step").isDefined
        · simp [hl, bind, Except.bind, pure, Except.pure, returns, hw, final_ok]
        · simp [hl, bind, Except.bind, pure, Except.pure, returns]
          exact updateStatus_state_congr data w1 w hw
  · simp [pure, Except.pure, bind, Except.bind, final_ok]

/-- The canonical state `loadStatus` leaves: that of `updateStatus` on the
`data` of the reply when the reply is an object whose `success` and `data` are
truthy, and the old one otherwise. -/
theorem loadStatus_state (reply : Reply) (w : World) :
    (loadStatus reply w).state =
      match reply with
      | .rejected _ => w.state
      | .json result =>
        if !result.isNullish && (prop result "success").truthy
            && (prop result "data").truthy then
          match prop result "data" with
          | .obj d => (final (updateStatus d w)).state
          | _ => (final (updateStatus [] w)).state
        else w.state := by
  unfold loadStatus
  split
  · rfl
  · rename_i result
    cases hn : result.isNullish
    · cases hs : ((prop result "success").truthy && (prop result "data").truthy)
      · have hs2 : ((prop result "success").truthy = true
            ∧ (prop result "data").truthy = true) ↔ False := by
          simpa using hs
        simp [hs2]
      · have hs2 : (prop result "success").truthy = true
            ∧ (prop result "data").truthy = true := by
          simpa using hs
        simp only [Bool.false_eq_true, if_false, hs, if_true, Bool.not_false, Bool.true_and,
          hs2.1, hs2.2, Bool.and_self]
        split <;> rfl
    · simp

/-- C7, amended: apart from `updateStatus`, only `startProcess` and
`stopProcess` write the canonical state, and they write `isRunning` alone
(`true`, respectively `false`) and only on a successful reply, an object whose
`success` is truthy; on any other reply they leave the state as it was.
`handleWebSocketMessage` changes the state exactly by its call of
`updateStatus(data)`, made when the message is no ping, carries a `step` and the
log line before it did not throw; `loadStatus` changes it exactly by its call of
`updateStatus` on the `data` of a reply whose `success` and `data` are truthy.
`saveConfig`, `updateUI`, `updateSteps`, `addLog`, the four display functions
and the log clearing leave every field as it was, for every state and reply. -/
theorem canonical_state_writers (w : World) (reply : Reply) (data : Obj) (v level : JSVal)
    (message : Text) :
    (final (handleWebSocketMessage data w)).state
        = (if !(get data "type").strictEqStr "ping" && (get data "step").isDefined
            && !((get data "time").truthy && (get data "level").truthy
              && (get data "message").truthy
              && !returns (addLog (get data "level") (.ofValue (get data "message")) w)) then
          (final (updateStatus data w)).state
        else w.state)
      ∧ (loadStatus reply w).state
        = (match reply with
          | .rejected _ => w.state
          | .json result =>
            if !result.isNullish && (prop result "success").truthy
                && (prop result "data").truthy then
              match prop result "data" with
              | .obj d => (final (updateStatus d w)).state
              | _ => (final (updateStatus [] w)).state
            else w.state)
      ∧ (saveConfig reply w).state = w.state
      ∧ (startProcess reply w).state
        = (match reply with
          | .rejected _ => w.state
          | .json result =>
            if !result.isNullish && (prop result "success").truthy then
              { w.state with isRunning := true }
            else w.state)
      ∧ (stopProcess reply w).state
        = (match reply with
          | .rejected _ => w.state
          | .json result =>
            if !result.isNullish && (prop result "success").truthy then
              { w.state with isRunning := false }
            else w.state)
      ∧ (final (updateUI w)).state = w.state
      ∧ (final (updateSteps w)).state = w.state
      ∧ (final (addLog level message w)).state = w.state
      ∧ (final (displayAddress v w)).state = w.state
      ∧ (final (displayGoods v w)).state = w.state
      ∧ (final (displayTimeSlots v w)).state = w.state
      ∧ (final (displayOrder v w)).state = w.state
      ∧ (clearLog w).state = w.state :=
  ⟨handleWebSocketMessage_state data w, loadStatus_state reply w, saveConfig_state reply w,
    startProcess_state reply w, stopProcess_state reply w, updateUI_state w,
    updateSteps_state w, addLog_state level message w, displayAddress_state v w,
    displayGoods_state v w, displayTimeSlots_state v w, displayOrder_state v w, rfl⟩

/-- C7 fails as stated: on the reply `{success: true}`, `startProcess` turns
`isRunning` of the fresh state from `false` to `true`, and `stopProcess` turns
it back to `false`, without any call of `updateStatus`. -/
theorem startProcess_stopProcess_counterexample :
    World.initial.state.isRunning = false
      ∧ (startProcess (.json (.obj [("success", .bool true)])) World.initial).state.isRunning
        = true
      ∧ (stopProcess (.json (.obj [("success", .bool true)]))
          (startProcess (.json (.obj [("success", .bool true)])) World.initial)).state.isRunning
        = false :=
  ⟨rfl, rfl, rfl⟩

/-! ## C8: the step table -/

/-- Each of the sixteen identifiers of the table reads as its own descriptor. -/
theorem stepFor_of_stepMap : ∀ kd ∈ stepMap, stepFor kd.1 = .descriptor kd.2 := by
  decide

/-- A string that is neither a key of the table nor a property name of
`Object.prototype` reads as the descriptor of `idle`. -/
theorem stepFor_of_unknown (k : String) (h1 : k ∉ stepIds) (h2 : k ∉ objectPrototypeKeys) :
    stepFor k = .descriptor ⟨"等待开始", "配置参数后点击开始", "⏸️"⟩ := by
  have hl : stepMap.lookup k = none := by
    rw [List.lookup_eq_none_iff]
    intro kd hkd
    have hm : kd.1 ∈ stepIds := List.mem_map_of_mem Prod.fst hkd
    simp only [bne_iff_ne, ne_eq]
    intro e
    exact h1 (e ▸ hm)
  have hc : objectPrototypeKeys.contains k = false := by
    cases hb : objectPrototypeKeys.contains k
    · rfl
    · exact absurd (by simpa using hb) h2
  have hg : stepMapGet k = .undefined := by
    unfold stepMapGet
    rw [hl]
    simp only [hc, Bool.false_eq_true, if_false]
  unfold stepFor
  rw [hg]
  decide

/-- C8 fails on the code: for the string `"constructor"`, which is none of the
sixteen identifiers, the read `stepMap[k]` finds the member that the object
literal inherits from `Object.prototype`; it is truthy, so the fallback to
`stepMap['idle']` is not taken and the step panel gets no descriptor. -/
theorem stepFor_constructor :
    "constructor" ∉ stepIds
      ∧ stepFor "constructor" = .inherited "constructor"
      ∧ stepFor "constructor" ≠ stepFor "idle" := by
  decide

/-! ## C5: a sequence of fragments and its concatenation -/

theorem lookup_truthy (a : Obj) (k : String) (v : JSVal)
    (ha : ∀ kv ∈ a, kv.2.truthy = true) (h : a.lookup k = some v) : v.truthy = true := by
  induction a with
  | nil => simp at h
  | cons kv a ih =>
    obtain ⟨k1, v1⟩ := kv
    rw [List.lookup_cons] at h
    cases hb : (k == k1)
    · rw [hb] at h
      exact ih (fun kv hkv => ha kv (List.mem_cons_of_mem _ hkv)) h
    · rw [hb] at h
      have hv : v1 = v := by simpa using h
      rw [← hv]
      exact ha (k1, v1) (List.mem_cons_self _ _)

theorem lookup_append_obj (a b : Obj) (k : String) :
    (a ++ b).lookup k = match a.lookup k with
      | some v => some v
      | none => b.lookup k := by
  induction a with
  | nil => rfl
  | cons kv a ih =>
    obtain ⟨k1, v1⟩ := kv
    rw [List.cons_append, List.lookup_cons, List.lookup_cons]
    cases hb : (k == k1)
    · exact ih
    · rfl

/-- A key of `a ++ b` reads as in `a` when `a` carries it, and as in `b` otherwise. -/
theorem get_append_cases (a b : Obj) (k : String) (ha : ∀ kv ∈ a, kv.2.truthy = true) :
    ((get a k).truthy = true ∧ get (a ++ b) k = get a k)
      ∨ (get a k = .undefined ∧ get (a ++ b) k = get b k) := by
  unfold get
  rw [lookup_append_obj]
  cases h : a.lookup k with
  | none => exact Or.inr ⟨rfl, rfl⟩
  | some v => exact Or.inl ⟨lookup_truthy a k v ha h, rfl⟩

theorem field_append {α : Type} (a b : Obj) (k : String) (x : α) (F : JSVal → α)
    (ha : ∀ kv ∈ a, kv.2.truthy = true) :
    (if (get (a ++ b) k).truthy then F (get (a ++ b) k) else x)
      = if (get a k).truthy then F (get a k)
        else if (get b k).truthy then F (get b k) else x := by
  rcases get_append_cases a b k ha with ⟨h1, h2⟩ | ⟨h1, h2⟩
  · rw [h2, h1]; simp
  · rw [h2, h1]; simp [JSVal.truthy]

theorem panelsComplete_iff (f : Obj) :
    panelsComplete f = true ↔
      ((get f "address").truthy = true → displayAddressThrows (get f "address") = false)
      ∧ ((get f "goodsList").truthy = true → lengthIsZero (get f "goodsList") = false →
          goodsMapThrows (get f "goodsList") = false)
      ∧ ((get f "timeSlots").truthy = true → lengthIsZero (get f "timeSlots") = false →
          timeSlotsMapThrows (get f "timeSlots") = false)
      ∧ ((get f "order").truthy = true → displayOrderThrows (get f "order") = false) := by
  unfold panelsComplete pastTimeSlots pastGoodsList pastAddress
  cases (get f "address").truthy <;> cases displayAddressThrows (get f "address") <;>
    cases (get f "goodsList").truthy <;> cases lengthIsZero (get f "goodsList") <;>
    cases goodsMapThrows (get f "goodsList") <;> cases (get f "timeSlots").truthy <;>
    cases lengthIsZero (get f "timeSlots") <;> cases timeSlotsMapThrows (get f "timeSlots") <;>
    cases (get f "order").truthy <;> cases displayOrderThrows (get f "order") <;> decide

theorem panelsComplete_append (a b : Obj) (ha : ∀ kv ∈ a, kv.2.truthy = true)
    (hpa : panelsComplete a = true) (hpb : panelsComplete b = true) :
    panelsComplete (a ++ b) = true := by
  rw [panelsComplete_iff] at hpa hpb ⊢
  obtain ⟨a1, a2, a3, a4⟩ := hpa
  obtain ⟨b1, b2, b3, b4⟩ := hpb
  refine ⟨?_, ?_, ?_, ?_⟩
  · rcases get_append_cases a b "address" ha with ⟨_, h2⟩ | ⟨_, h2⟩ <;> rw [h2]
    · exact a1
    · exact b1
  · rcases get_append_cases a b "goodsList" ha with ⟨_, h2⟩ | ⟨_, h2⟩ <;> rw [h2]
    · exact a2
    · exact b2
  · rcases get_append_cases a b "timeSlots" ha with ⟨_, h2⟩ | ⟨_, h2⟩ <;> rw [h2]
    · exact a3
    · exact b3
  · rcases get_append_cases a b "order" ha with ⟨_, h2⟩ | ⟨_, h2⟩ <;> rw [h2]
    · exact a4
    · exact b4

/-- Applying `a ++ b` is applying `b` and then `a`, when the values `a` carries
are truthy and the panel calls of both return. -/
theorem reconcile_append (a b : Obj) (s : State) (ha : ∀ kv ∈ a, kv.2.truthy = true)
    (hpa : panelsComplete a = true) (hpb : panelsComplete b = true) :
    reconcile (a ++ b) s = reconcile a (reconcile b s) := by
  rw [reconcile_of_panelsComplete (a ++ b) s (panelsComplete_append a b ha hpa hpb),
    reconcile_of_panelsComplete a _ hpa, reconcile_of_panelsComplete b s hpb]
  have e0 := field_append a b "status" s.isRunning (fun v => v.strictEqStr "running") ha
  have e1 := field_append a b "step" s.currentStep id ha
  have e2 := field_append a b "address" s.address id ha
  have e3 := field_append a b "stores" s.stores id ha
  have e4 := field_append a b "goodsList" s.goodsList id ha
  have e5 := field_append a b "timeSlots" s.timeSlots id ha
  have e6 := field_append a b "order" s.order id ha
  simp only [id_eq] at e0 e1 e2 e3 e4 e5 e6
  simp only
  rw [e0, e1, e2, e3, e4, e5, e6]

theorem concatFragments_truthy (fs : List Obj)
    (ht : ∀ f ∈ fs, ∀ kv ∈ f, kv.2.truthy = true) :
    ∀ kv ∈ concatFragments fs, kv.2.truthy = true := by
  induction fs with
  | nil => intro kv h; simp [concatFragments] at h
  | cons f fs ih =>
    intro kv h
    simp only [concatFragments, List.mem_append] at h
    rcases h with h | h
    · exact ih (fun g hg => ht g (List.mem_cons_of_mem _ hg)) kv h
    · exact ht f (List.mem_cons_self _ _) kv h

theorem concatFragments_panelsComplete (fs : List Obj)
    (ht : ∀ f ∈ fs, ∀ kv ∈ f, kv.2.truthy = true)
    (hp : ∀ f ∈ fs, panelsComplete f = true) :
    panelsComplete (concatFragments fs) = true := by
  induction fs with
  | nil => decide
  | cons f fs ih =>
    have ht2 : ∀ g ∈ fs, ∀ kv ∈ g, kv.2.truthy = true :=
      fun g hg => ht g (List.mem_cons_of_mem _ hg)
    have hp2 : ∀ g ∈ fs, panelsComplete g = true :=
      fun g hg => hp g (List.mem_cons_of_mem _ hg)
    exact panelsComplete_append _ _ (concatFragments_truthy fs ht2) (ih ht2 hp2)
      (hp f (List.mem_cons_self _ _))

/-- The concatenation reads each key as the last fragment that carries it. -/
theorem get_concatFragments_cons (f : Obj) (fs : List Obj) (k : String) :
    (concatFragments (f :: fs)).lookup k = match (concatFragments fs).lookup k with
      | some v => some v
      | none => f.lookup k :=
  lookup_append_obj _ _ _

theorem applyAll_cons (f : Obj) (fs : List Obj) (w : World) :
    applyAll (f :: fs) w = applyAll fs (final (updateStatus f w)) := rfl

/-- C5, amended: for a sequence of fragments that carry only truthy values and
whose panel calls return, applying the fragments one at a time with
`updateStatus` leaves the same canonical state as applying their concatenation
once. -/
theorem applyAll_eq_concatFragments (fs : List Obj) (w : World)
    (ht : ∀ f ∈ fs, ∀ kv ∈ f, kv.2.truthy = true)
    (hp : ∀ f ∈ fs, panelsComplete f = true) :
    (applyAll fs w).state = (final (updateStatus (concatFragments fs) w)).state := by
  rw [updateStatus_state]
  induction fs generalizing w with
  | nil =>
    show w.state = reconcile [] w.state
    simp [reconcile, get, JSVal.truthy]
  | cons f fs ih =>
    have ht2 : ∀ g ∈ fs, ∀ kv ∈ g, kv.2.truthy = true :=
      fun g hg => ht g (List.mem_cons_of_mem _ hg)
    have hp2 : ∀ g ∈ fs, panelsComplete g = true :=
      fun g hg => hp g (List.mem_cons_of_mem _ hg)
    rw [applyAll_cons, ih _ ht2 hp2, updateStatus_state]
    show _ = reconcile (concatFragments fs ++ f) w.state
    rw [reconcile_append _ _ _ (concatFragments_truthy fs ht2)
      (concatFragments_panelsComplete fs ht2 hp2) (hp f (List.mem_cons_self _ _))]

/-- Witness of C5, amended: an address, then a running status with a step, then
a new step, on the fresh page. -/
theorem applyAll_eq_concatFragments_witness :
    (applyAll [[("address", .obj [("name", .str "A")])],
        [("status", .str "running"), ("step", .str "starting")],
        [("step", .str "checking_stores")]] World.initial).state
      = (final (updateStatus (concatFragments [[("address", .obj [("name", .str "A")])],
        [("status", .str "running"), ("step", .str "starting")],
        [("step", .str "checking_stores")]]) World.initial)).state :=
  applyAll_eq_concatFragments _ World.initial (by decide) (by decide)

/-- C5 fails as stated: after `{order: {orderNo: "A1"}}` and then `{order: null}`
the order is still stored, whereas the concatenation carries `order: null`,
which `updateStatus` skips, so the fresh state keeps no order. -/
theorem applyAll_concatFragments_counterexample :
    get (concatFragments [[("order", .obj [("orderNo", .str "A1")])], [("order", .null)]])
        "order" = .null
      ∧ (applyAll [[("order", .obj [("orderNo", .str "A1")])], [("order", .null)]]
          World.initial).state.order = .obj [("orderNo", .str "A1")]
      ∧ (final (updateStatus
          (concatFragments [[("order", .obj [("orderNo", .str "A1")])], [("order", .null)]])
          World.initial)).state.order = .null
      ∧ JSVal.obj [("orderNo", .str "A1")] ≠ JSVal.null :=
  ⟨rfl, rfl, rfl, by simp⟩

/-! ## C6: the reconnection timer -/

/-- A close or a firing timer keeps the number of open sockets and pending
timers together at what it was. -/
theorem connStep_count (p q : Page) (e : ConnEvent) (he : e ≠ .init)
    (h : connStep p e = some q) :
    q.conn.timers.length + q.conn.sockets.length
      = p.conn.timers.length + p.conn.sockets.length := by
  cases e with
  | init => exact absurd rfl he
  | close socket =>
    simp only [connStep] at h
    by_cases hm : socket ∈ p.conn.sockets
    · rw [if_pos hm] at h
      have hq : q = onclose socket p := (Option.some.inj h).symm
      have hpos : 0 < p.conn.sockets.length := List.length_pos_of_mem hm
      rw [hq]
      simp only [onclose, List.length_cons, List.length_erase_of_mem hm]
      omega
    · rw [if_neg hm] at h
      exact absurd h (by simp)
  | timer id =>
    simp only [connStep] at h
    by_cases hm : id ∈ p.conn.timers
    · rw [if_pos hm] at h
      have hq : q = timerFires id p := (Option.some.inj h).symm
      have hpos : 0 < p.conn.timers.length := List.length_pos_of_mem hm
      rw [hq]
      simp only [timerFires, initWebSocket, List.length_cons, List.length_erase_of_mem hm]
      omega
    · rw [if_neg hm] at h
      exact absurd h (by simp)

theorem connRun_count (es : List ConnEvent) (p q : Page) (hes : ConnEvent.init ∉ es)
    (h : connRun p es = some q) :
    q.conn.timers.length + q.conn.sockets.length
      = p.conn.timers.length + p.conn.sockets.length := by
  induction es generalizing p with
  | nil =>
    have hq : p = q := Option.some.inj h
    rw [hq]
  | cons e es ih =>
    have he : e ≠ .init := fun e0 => hes (e0 ▸ List.mem_cons_self _ _)
    have hes2 : ConnEvent.init ∉ es := fun hm => hes (List.mem_cons_of_mem _ hm)
    unfold connRun at h
    cases hs : connStep p e with
    | none => rw [hs] at h; exact absurd h (by simp)
    | some r =>
      rw [hs] at h
      rw [ih r hes2 h, connStep_count p r e he hs]

/-- C6, amended: when `initWebSocket` runs once at page load and after that
only from a firing timer, and every socket closes at most once, every reachable
state has exactly one thing outstanding, an open socket or a pending
reconnection timer; in particular at most one timer is pending. -/
theorem connRun_one_pending_timer (es : List ConnEvent) (p : Page)
    (hes : ConnEvent.init ∉ es) (h : connRun Page.initial (.init :: es) = some p) :
    p.conn.timers.length + p.conn.sockets.length = 1 ∧ p.conn.timers.length ≤ 1 := by
  have h1 : connRun (initWebSocket Page.initial) es = some p := h
  have h2 := connRun_count es _ p hes h1
  have h3 : p.conn.timers.length + p.conn.sockets.length = 1 := h2
  exact ⟨h3, by omega⟩

/-- Witness of C6, amended: load, close, reconnect, close again. -/
theorem connRun_one_pending_timer_witness :
    ConnEvent.init ∉ [ConnEvent.close 0, .timer 1, .close 2]
      ∧ connRun Page.initial [.init, .close 0, .timer 1, .close 2]
        = some (onclose 2 (timerFires 1 (onclose 0 (initWebSocket Page.initial))))
      ∧ (onclose 2 (timerFires 1 (onclose 0 (initWebSocket Page.initial)))).conn.timers = [3]
      ∧ ((onclose 2 (timerFires 1 (onclose 0 (initWebSocket Page.initial)))).conn.timers.length
          + (onclose 2 (timerFires 1 (onclose 0
            (initWebSocket Page.initial)))).conn.sockets.length = 1
        ∧ (onclose 2 (timerFires 1 (onclose 0
            (initWebSocket Page.initial)))).conn.timers.length ≤ 1) :=
  ⟨by decide, rfl, rfl,
    connRun_one_pending_timer [.close 0, .timer 1, .close 2] _ (by decide) rfl⟩

/-- C6 fails as stated: the code has no `clearTimeout`. When `initWebSocket` is
called while the timer set by a close is pending, the timer stays pending, and
the close of the new socket sets a second one next to it. -/
theorem initWebSocket_keeps_timer_counterexample :
    (connRun Page.initial [.init, .close 0]).map (fun p => p.conn.timers) = some [1]
      ∧ (connRun Page.initial [.init, .close 0, .init]).map (fun p => p.conn.timers)
        = some [1]
      ∧ (connRun Page.initial [.init, .close 0, .init, .close 2]).map
          (fun p => p.conn.timers) = some [3, 1] := by
  decide

end Sams
